import Mathlib

/-!
Verification development for the EclecticIQ Splunk TA "create sighting"
workflow action (`TA-eclecticiq/bin/create_sighting.py`).

The Python module is shallowly embedded here:

* Python dicts over string keys are association lists with insertion order
  and last-write-wins update semantics (`dictFind`, `dictSet`).
* The two on-disk `.conf` files are values of type `Option ConfData`:
  `none` models an absent file, `some sections` models the stanza map that
  `splunk.clilib.cli_common.readConfFile` would return.
* Python exceptions are the `PyError` inductive; a function that can raise
  returns `Except PyError α`.
* The process clock is passed in: `handle` samples `datetime.datetime.utcnow()`
  twice (once for `today`, once for `time`), so it receives the two sampled
  instants as parameters.
* The network is an oracle `net : HttpRequest → NetResult`; the list of
  requests actually handed to `requests.request` is returned as a trace, so
  "no outbound call is issued" is the trace being empty.
* Response bodies travel already parsed (`Jsn`); `json.loads` on a response
  body is the identity in this model (malformed remote JSON is not modelled,
  no claim depends on it).
* The module-level `SIGHTING_SCHEMA` dict, which `handle` aliases and mutates
  in place, is threaded through `handle` as explicit state: `handle` receives
  the template's current value and returns its value after the call.
-/

/-- Python-style string dictionary lookup (`d[k]` / `d.get(k)`):
first entry with the given key, if any. -/
def dictFind {α : Type} (d : List (String × α)) (k : String) : Option α :=
  (d.find? (fun kv => kv.1 = k)).map (fun kv => kv.2)

/-- Python-style dictionary write `d[k] = v`: replaces the value in place if
the key is present (keeping insertion order), appends otherwise. -/
def dictSet {α : Type} (d : List (String × α)) (k : String) (v : α) :
    List (String × α) :=
  match d with
  | [] => [(k, v)]
  | kv :: rest =>
    if kv.1 = k then (k, v) :: rest else kv :: dictSet rest k v

/-- Python `old.update(new)`: write every entry of `new` into `old` in order. -/
def dictUpdate {α : Type} (old new : List (String × α)) : List (String × α) :=
  new.foldl (fun acc kv => dictSet acc kv.1 kv.2) old

/-- Python exceptions that the embedded code can raise. -/
inductive PyError where
  /-- `KeyError` from a `d[k]` lookup with `k` absent. -/
  | keyError (k : String)
  /-- `UnboundLocalError`/`NameError`: a local variable read before assignment. -/
  | nameError (n : String)
  /-- `TypeError`, e.g. `None + "/entities"`. -/
  | typeError (msg : String)
  /-- `AttributeError`, e.g. `None.get(...)`. -/
  | attributeError (msg : String)
  /-- `requests.exceptions.HTTPError` raised by `Response.raise_for_status`. -/
  | httpError (status : Nat)
  /-- `requests.exceptions.ConnectionError`. -/
  | connectionError
  /-- `requests.exceptions.Timeout`. -/
  | timeoutError
  /-- other `requests.exceptions.RequestException`. -/
  | requestException
deriving DecidableEq, Repr

/-- `true` exactly when the computation raised. -/
def pyRaises {α : Type} : Except PyError α → Bool
  | .error _ => true
  | .ok _ => false

/-- A `datetime.datetime` value (UTC, no tzinfo). -/
structure DateTime where
  year : Nat
  month : Nat
  day : Nat
  hour : Nat
  minute : Nat
  second : Nat
  microsecond : Nat
deriving DecidableEq, Repr

/-- `datetime.datetime(today.year, today.month, today.day, 0, 0, 0)` where
`today = t.date()`: midnight of `t`'s calendar date. -/
def DateTime.midnight (t : DateTime) : DateTime :=
  ⟨t.year, t.month, t.day, 0, 0, 0, 0⟩

/-- Zero-padded decimal rendering to width 2 (strftime field). -/
def pad2 (n : Nat) : String :=
  if n < 10 then "0" ++ toString n else toString n

/-- Zero-padded decimal rendering to width 4 (strftime `%Y`). -/
def pad4 (n : Nat) : String :=
  if n < 10 then "000" ++ toString n
  else if n < 100 then "00" ++ toString n
  else if n < 1000 then "0" ++ toString n
  else toString n

/-- Zero-padded decimal rendering to width 6 (strftime `%f`). -/
def pad6 (n : Nat) : String :=
  if n < 10 then "00000" ++ toString n
  else if n < 100 then "0000" ++ toString n
  else if n < 1000 then "000" ++ toString n
  else if n < 10000 then "00" ++ toString n
  else if n < 100000 then "0" ++ toString n
  else toString n

/-- `datetime.datetime.strftime` restricted to the directives the add-on's
format string uses (`%Y %m %d %H %M %S %f`); other `%x` pairs and plain
characters are copied through. -/
def strftimeChars (t : DateTime) : List Char → String
  | [] => ""
  | '%' :: c :: rest =>
    (if c = 'Y' then pad4 t.year
     else if c = 'm' then pad2 t.month
     else if c = 'd' then pad2 t.day
     else if c = 'H' then pad2 t.hour
     else if c = 'M' then pad2 t.minute
     else if c = 'S' then pad2 t.second
     else if c = 'f' then pad6 t.microsecond
     else String.mk ['%', c]) ++ strftimeChars t rest
  | c :: rest => String.singleton c ++ strftimeChars t rest

/-- `datetime.datetime.strftime(t, fmt)`. -/
def strftime (t : DateTime) (fmt : String) : String :=
  strftimeChars t fmt.data

/-! ### Constants

The add-on's `constants/` package and `utils/formatters.py` are part of the
repository but are not under `src/`; the values below are modelled from the
spec.  Their concrete string values are placeholders — every theorem below is
insensitive to them beyond distinctness. -/

/-- Modelled from the spec: `constants.general.CREDS`, the form key carrying
the API credential (file not under `src/`). -/
def CREDS : String := "api_key"

/-- Modelled from the spec: `constants.general.URL`, the field name of the
base URL inside an account stanza (file not under `src/`). -/
def URL : String := "url"

/-- Modelled from the spec: `constants.general.PROXY`, the name of the proxy
stanza in the settings file (file not under `src/`). -/
def PROXY : String := "proxy"

/-- Modelled from the spec: `constants.general.PROXY_PASSWORD`, the key under
which the per-request proxy password is stored (file not under `src/`). -/
def PROXY_PASSWORD : String := "proxy_password"

/-- Modelled from the spec: `constants.general.AUTHORIZATION` header name
(file not under `src/`). -/
def AUTHORIZATION : String := "Authorization"

/-- Modelled from the spec: `constants.sighting_right_click.CONTENT_TYPE`
header name (file not under `src/`). -/
def CONTENT_TYPE : String := "Content-Type"

/-- Modelled from the spec: `constants.sighting_right_click.TEXT_PLAIN`
(file not under `src/`). -/
def TEXT_PLAIN : String := "text/plain"

/-- Modelled from the spec: `constants.sighting_right_click.DATA_STR`, the
`"data"` key of both the sighting document and the created-entity response
(file not under `src/`). -/
def DATA_STR : String := "data"

/-- Modelled from the spec: `constants.sighting_right_click.SIGHTING_VALUE`,
the form key of the sighting value (file not under `src/`). -/
def SIGHTING_VALUE : String := "sighting_value"

/-- Modelled from the spec: `constants.sighting_right_click.SIGHTING_DESC`,
the form key of the sighting description (file not under `src/`). -/
def SIGHTING_DESC : String := "sighting_description"

/-- Modelled from the spec: `constants.sighting_right_click.CONFIDENCE_LEVEL`,
the form key of the confidence level (file not under `src/`). -/
def CONFIDENCE_LEVEL : String := "confidence_level"

/-- Modelled from the spec: `constants.sighting_right_click.SIGHTING_TITLE`,
the form key of the sighting title (file not under `src/`). -/
def SIGHTING_TITLE : String := "sighting_title"

/-- Modelled from the spec: `constants.sighting_right_click.SIGHTING_TAGS`,
the form key of the submitted tags value (file not under `src/`). -/
def SIGHTING_TAGS : String := "sighting_tags"

/-- Modelled from the spec: `constants.sighting_right_click.SIGHTING_TYPE`,
the form key of the sighting (security-control) type (file not under `src/`). -/
def SIGHTING_TYPE : String := "sighting_type"

/-- Modelled from the spec: `constants.messages.CREDS_NOT_FOUND`, the
"credentials not found" message (file not under `src/`). -/
def CREDS_NOT_FOUND : String := "Credentials not found"

/-- Modelled from the spec: `constants.messages.COULD_NOT_CREATE_SIGHTING`,
the generic failure message (file not under `src/`). -/
def COULD_NOT_CREATE_SIGHTING : String := "Could not create sighting"

/-- Modelled from the spec: `constants.messages.SIGHTING_CREATED` rendered by
`str.format`, wording "Sighting created: <url>/<id>" (file not under `src/`). -/
def sightingCreated (u entityId : String) : String :=
  "Sighting created: " ++ u ++ "/" ++ entityId

/-- Modelled from the spec: `constants.sighting_right_click.TIME_FORMAT`, a
`YYYY-MM-DDTHH:MM:SS.ffffffZ`-style strftime string (file not under `src/`). -/
def TIME_FORMAT : String := "%Y-%m-%dT%H:%M:%S.%fZ"

/-! ### The sighting document -/

/-- The `security_control.time` sub-dict of the sighting document. -/
structure SecurityControlTime where
  start_time : String
deriving DecidableEq, Repr

/-- The `security_control` sub-dict of the sighting document. -/
structure SecurityControl where
  sc_type : String
  time : SecurityControlTime
deriving DecidableEq, Repr

/-- The inner `data.data` section of the sighting document. -/
structure SightingData where
  value : String
  description : String
  timestamp : String
  confidence : String
  title : String
  security_control : SecurityControl
deriving DecidableEq, Repr

/-- The `data.meta` section of the sighting document. -/
structure SightingMeta where
  tags : List String
  ingest_time : String
deriving DecidableEq, Repr

/-- The value under the top-level `data` key of the sighting document. -/
structure SightingCore where
  data : SightingData
  meta : SightingMeta
deriving DecidableEq, Repr

/-- The sighting document: a dict with one top-level `data` key. -/
structure Sighting where
  data : SightingCore
deriving DecidableEq, Repr

/-- Modelled from the spec: `constants.sighting_right_click.SIGHTING_SCHEMA`,
the module-level template dict (file not under `src/`); leaf fields start out
blank and `handle` overwrites them in place. -/
def SIGHTING_SCHEMA : Sighting :=
  ⟨⟨⟨"", "", "", "", "", ⟨"", ⟨""⟩⟩⟩, ⟨[], ""⟩⟩⟩

/-! ### HTTP layer -/

/-- JSON values as decoded by `json.loads`; remote response bodies travel in
this already-parsed form. -/
inductive Jsn where
  | jstr (s : String)
  | jnum (n : Int)
  | jbool (b : Bool)
  | jnull
  | jarr (xs : List Jsn)
  | jobj (fields : List (String × Jsn))

/-- Python subscript `content[k]` on a decoded JSON value: `KeyError` when the
key is absent, `TypeError` when the value is not an object. -/
def jsnGet (v : Jsn) (k : String) : Except PyError Jsn :=
  match v with
  | .jobj fields =>
    match dictFind fields k with
    | some w => .ok w
    | none => .error (.keyError k)
  | _ => .error (.typeError "subscript on non-object")

/-- Python `str()` of a decoded JSON value, as used by `str.format`; no claim
formats a composite value, so those render as placeholders. -/
def pyStr : Jsn → String
  | .jstr s => s
  | .jnum n => toString n
  | .jbool b => if b then "True" else "False"
  | .jnull => "None"
  | .jarr _ => "list"
  | .jobj _ => "dict"

/-- The argument record of the single `requests.request` call. -/
structure HttpRequest where
  method : String
  url : String
  headers : List (String × String)
  /-- `data=json.dumps(sighting)`: the body is the serialized sighting
  document; it travels here in structured form. -/
  body : Sighting
  verify : Bool
  timeoutSecs : Nat
  /-- `proxies=`: `none` models Python `None` (no proxy), `some uri` the
  proxy mapping built by `format_proxy_uri`. -/
  proxies : Option String
deriving DecidableEq, Repr

/-- A remote HTTP response: status code plus already-decoded body. -/
structure HttpResp where
  status : Nat
  content : Jsn

/-- What the network does with an issued request: either a response comes
back, or `requests` raises a transport-level exception. -/
inductive NetResult where
  | resp (r : HttpResp)
  | exc (e : PyError)

/-- The content of the two on-disk `.conf` files as returned by
`cli.readConfFile`: stanzas in file order, each with its fields. -/
abbrev ConfData : Type := List (String × List (String × String))

/-- Python `str.startswith`: a character-prefix test, used by the handler as
`str(response.status_code).startswith("2")`. -/
def strStartsWith (s pre : String) : Bool :=
  pre.data.isPrefixOf s.data

/-- The builder's tags expression `"".join(i for i in list(payload[...]))`:
concatenate every character of the submitted tags value, in order. -/
def joinChars (s : String) : String :=
  String.join (s.data.map (fun c => String.singleton c))

/-- Modelled from the spec: `utils.formatters.format_proxy_uri` builds the
proxy URI from host/port/credentials (file not under `src/`). -/
def format_proxy_uri (proxy : List (String × String)) : String :=
  "http://" ++ (dictFind proxy "proxy_username").getD "" ++ ":" ++
    (dictFind proxy PROXY_PASSWORD).getD "" ++ "@" ++
    (dictFind proxy "proxy_host").getD "" ++ ":" ++
    (dictFind proxy "proxy_port").getD ""

/-- The handler's proxy-password expression
`payload.get("proxy_pass") if payload.get("proxy_pass") else ""`: the
submitted value when present and truthy, the empty string otherwise. -/
def proxyPassOf (payload : List (String × String)) : String :=
  match dictFind payload "proxy_pass" with
  | some s => if s = "" then "" else s
  | none => ""

/-- The handler's password injection
`if settingsconf[PROXY]: settingsconf[PROXY][PROXY_PASSWORD] = proxy_pass`:
only a truthy (present and non-empty) proxy dict receives the password. -/
def injectProxyPass (p : Option (List (String × String))) (pass : String) :
    Option (List (String × String)) :=
  match p with
  | some fields =>
    if fields = [] then some fields
    else some (dictSet fields PROXY_PASSWORD pass)
  | none => none

/-! ### The handler -/

/-- The body slot of the normalized response: `create_response` receives a
message string on ordinary paths and the caught exception object on the
catch-all path (`create_response(500, err)`). -/
inductive Body where
  | text (s : String)
  | err (e : PyError)
deriving DecidableEq, Repr

/-- The normalized response shape returned to the caller. -/
structure HandlerResponse where
  payload : Body
  status : Nat
  headers : List (String × String)
deriving DecidableEq, Repr

/-- Everything one call to `Send.handle` produces: the returned response (or
the exception escaping the handler), the module-level `SIGHTING_SCHEMA`
value after the call, and the trace of outbound HTTP requests issued. -/
structure HandleResult where
  outcome : Except PyError HandlerResponse
  schema : Sighting
  sent : List HttpRequest

namespace Send

/-- `Send.parse_form_data`: fold the ordered `[key, value]` pairs into a
dict; on duplicate keys the last value wins. -/
def parse_form_data (form_data : List (String × String)) :
    List (String × String) :=
  form_data.foldl (fun parsed kv => dictSet parsed kv.1 kv.2) []

/-- `Send.create_response`: the pure normalized-response constructor. -/
def create_response (status : Nat) (message : Body) : HandlerResponse :=
  ⟨message, status, [(CONTENT_TYPE, TEXT_PLAIN)]⟩

/-- The body of `Send.get_url`'s stanza loop: remember the last non-`default`
stanza name in `account_name` (first component, `none` while unassigned) and
merge the stanza's fields into `apikeyconf` (second component). -/
def get_url_step (st : Option String × ConfData)
    (nc : String × List (String × String)) : Option String × ConfData :=
  let account_name := if nc.1 ≠ "default" then some nc.1 else st.1
  let apikeyconf :=
    match dictFind st.2 nc.1 with
    | some old => dictSet st.2 nc.1 (dictUpdate old nc.2)
    | none => st.2 ++ [nc]
  (account_name, apikeyconf)

/-- `Send.get_url`: walk the stanzas of `accounts.conf` with `get_url_step`,
then read `apikeyconf[account_name][URL]`.  An absent file returns Python
`None` (`.ok none`); a file with no non-`default` stanza leaves
`account_name` unassigned (`UnboundLocalError`); a qualifying stanza without
the URL field raises `KeyError`. -/
def get_url (conf : Option ConfData) : Except PyError (Option String) :=
  match conf with
  | none => .ok none
  | some localconf =>
    let st : Option String × ConfData := localconf.foldl get_url_step (none, [])
    match st.1 with
    | none => .error (.nameError "account_name")
    | some account_name =>
      match dictFind st.2 account_name with
      | none => .error (.keyError account_name)
      | some fields =>
        match dictFind fields URL with
        | none => .error (.keyError URL)
        | some u => .ok (some u)

/-- `Send.get_proxy`: return the fields of the stanza named `PROXY` when the
settings file exists and has one, Python `None` otherwise.  Never raises. -/
def get_proxy (conf : Option ConfData) : Option (List (String × String)) :=
  match conf with
  | none => none
  | some localsettingsconf =>
    ((localsettingsconf.find? (fun sf => sf.1 = PROXY)).map (fun sf => sf.2))

/-- `Send.send_request`: build the proxy mapping (`format_proxy_uri` exactly
when `proxy.get("proxy_enabled") == "1"`), issue the single
`requests.request` call, and `raise_for_status`.  `proxy` is `none` when
`handle` passes the Python `None` that `get_proxy` produced; `None.get`
raises `AttributeError` before any request is issued.  Transport exceptions
and the `HTTPError` of a 4xx/5xx response are logged and re-raised; the
returned list is the trace of requests actually issued. -/
def send_request (net : HttpRequest → NetResult) (url : String)
    (headers : List (String × String)) (proxy : Option (List (String × String)))
    (sighting : Sighting) : Except PyError HttpResp × List HttpRequest :=
  match proxy with
  | none => (.error (.attributeError "NoneType has no attribute get"), [])
  | some p =>
    let proxy_settings :=
      if dictFind p "proxy_enabled" = some "1" then some (format_proxy_uri p)
      else none
    let req : HttpRequest := ⟨"post", url, headers, sighting, true, 50, proxy_settings⟩
    let outcome : Except PyError HttpResp :=
      match net req with
      | .exc e => .error e
      | .resp response =>
        if 400 ≤ response.status ∧ response.status < 600 then
          .error (.httpError response.status)
        else
          .ok response
    (outcome, [req])

/-- `Send.handle`: the endpoint entry point, from the decoded request form
onward.  `accounts`/`settings` are the two `.conf` files, `schema` is the
current value of the module-level `SIGHTING_SCHEMA` template that
`sighting = SIGHTING_SCHEMA` aliases, `now₀`/`now₁` the two `utcnow()`
samples, `net` the network.  Only the `send_request` call is inside a
`try`; every other raise escapes as `.error`. -/
def handle (accounts settings : Option ConfData) (schema : Sighting)
    (now₀ now₁ : DateTime) (net : HttpRequest → NetResult)
    (form : List (String × String)) : HandleResult :=
  match get_url accounts with
  | .error e => ⟨.error e, schema, []⟩
  | .ok url =>
  let settings_proxy := get_proxy settings
  let payload := parse_form_data form
  let today := now₀
  let time := now₁
  match dictFind payload CREDS with
  | none => ⟨.ok (create_response 401 (.text CREDS_NOT_FOUND)), schema, []⟩
  | some api_key =>
  if api_key = "" then
    ⟨.ok (create_response 401 (.text CREDS_NOT_FOUND)), schema, []⟩
  else
  let proxy_pass := proxyPassOf payload
  let settings_proxy := injectProxyPass settings_proxy proxy_pass
  match dictFind payload SIGHTING_VALUE with
  | none => ⟨.error (.keyError SIGHTING_VALUE), schema, []⟩
  | some v =>
  let schema := { schema with data.data.value := v }
  match dictFind payload SIGHTING_DESC with
  | none => ⟨.error (.keyError SIGHTING_DESC), schema, []⟩
  | some desc =>
  let schema := { schema with data.data.description := desc }
  let schema := { schema with data.data.timestamp := strftime time TIME_FORMAT }
  match dictFind payload CONFIDENCE_LEVEL with
  | none => ⟨.error (.keyError CONFIDENCE_LEVEL), schema, []⟩
  | some conf =>
  let schema := { schema with data.data.confidence := conf }
  match dictFind payload SIGHTING_TITLE with
  | none => ⟨.error (.keyError SIGHTING_TITLE), schema, []⟩
  | some title =>
  let schema := { schema with data.data.title := title }
  match dictFind payload SIGHTING_TAGS with
  | none => ⟨.error (.keyError SIGHTING_TAGS), schema, []⟩
  | some tags =>
  let schema := { schema with data.meta.tags := [joinChars tags] }
  match dictFind payload SIGHTING_TYPE with
  | none => ⟨.error (.keyError SIGHTING_TYPE), schema, []⟩
  | some stype =>
  let schema := { schema with data.data.security_control.sc_type := stype }
  let schema :=
    { schema with
      data.data.security_control.time.start_time :=
        strftime today.midnight TIME_FORMAT }
  let schema := { schema with data.meta.ingest_time := strftime time TIME_FORMAT }
  let headers := [(AUTHORIZATION, "Bearer " ++ api_key)]
  match url with
  | none =>
    ⟨.ok (create_response 500 (.err (.typeError "unsupported operand"))), schema, []⟩
  | some u =>
  let result := send_request net (u ++ "/entities") headers settings_proxy schema
  let reqs := result.2
  match result.1 with
  | .error e => ⟨.ok (create_response 500 (.err e)), schema, reqs⟩
  | .ok response =>
  if (strStartsWith (toString response.status) "2") = false then
    ⟨.ok (create_response response.status (.text COULD_NOT_CREATE_SIGHTING)),
      schema, reqs⟩
  else
  match jsnGet response.content DATA_STR with
  | .error e => ⟨.error e, schema, reqs⟩
  | .ok d =>
  match jsnGet d "id" with
  | .error e => ⟨.error e, schema, reqs⟩
  | .ok entityId =>
    ⟨.ok (create_response response.status (.text (sightingCreated u (pyStr entityId)))),
      schema, reqs⟩

end Send

/-! ### Shared concrete inputs for witnesses and counterexamples -/

/-- A well-formed accounts file: a `default` stanza and one account stanza
carrying the base URL. -/
def accountsConf₁ : Option ConfData :=
  some [("default", []), ("acct", [(URL, "https://eiq.example")])]

/-- A settings file whose proxy stanza is present but disabled. -/
def settingsConf₁ : Option ConfData :=
  some [(PROXY, [("proxy_enabled", "0"), ("proxy_host", "p.example")])]

/-- A fixed clock instant. -/
def tNow : DateTime := ⟨2026, 10, 12, 13, 45, 7, 123456⟩

/-- A network that always answers with the given status and body. -/
def netOf (status : Nat) (content : Jsn) : HttpRequest → NetResult :=
  fun _ => .resp ⟨status, content⟩

/-- The created-entity response body of the spec's 201 example. -/
def respBody201 : Jsn := .jobj [(DATA_STR, .jobj [("id", .jstr "abc123")])]

/-- A form carrying the credential and every required field. -/
def fullForm : List (String × String) :=
  [(CREDS, "k1"), (SIGHTING_VALUE, "1.2.3.4"), (SIGHTING_DESC, "seen"),
   (CONFIDENCE_LEVEL, "high"), (SIGHTING_TITLE, "t"), (SIGHTING_TAGS, "EIQ"),
   (SIGHTING_TYPE, "sighting")]

/-! ### Claim C3 — missing or empty credential -/

/-- C3: a request whose form lacks the credential field (or carries it with an
empty value) makes the handler return status 401 with the "credentials not
found" message, leave the module schema untouched, and issue no outbound HTTP
request — provided the accounts-file read itself returns (it is performed
before the credential check and can itself raise, see C5). -/
theorem c3_missing_credential_401_no_outbound_call
    (accounts settings : Option ConfData) (schema : Sighting)
    (now₀ now₁ : DateTime) (net : HttpRequest → NetResult)
    (form : List (String × String))
    (hurl : pyRaises (Send.get_url accounts) = false)
    (hcred : dictFind (Send.parse_form_data form) CREDS = none ∨
             dictFind (Send.parse_form_data form) CREDS = some "") :
    Send.handle accounts settings schema now₀ now₁ net form =
      ⟨.ok (Send.create_response 401 (.text CREDS_NOT_FOUND)), schema, []⟩ := by
  cases hu : Send.get_url accounts with
  | error e => rw [hu] at hurl; simp [pyRaises] at hurl
  | ok url => rcases hcred with h | h <;> simp [Send.handle, hu, h]

/-- C3 witness: the concrete credential-free form at a concrete environment. -/
theorem c3_witness :
    Send.handle accountsConf₁ settingsConf₁ SIGHTING_SCHEMA tNow tNow
        (netOf 201 respBody201) [(SIGHTING_VALUE, "1.2.3.4")] =
      ⟨.ok (Send.create_response 401 (.text CREDS_NOT_FOUND)), SIGHTING_SCHEMA, []⟩ :=
  c3_missing_credential_401_no_outbound_call accountsConf₁ settingsConf₁
    SIGHTING_SCHEMA tNow tNow (netOf 201 respBody201) [(SIGHTING_VALUE, "1.2.3.4")]
    (by decide) (Or.inl (by decide))

/-! ### Claim C5 — the config resolvers and raising -/

/-- While every stanza seen so far is named `default`, the loop of
`Send.get_url` never assigns `account_name`. -/
lemma get_url_step_fold_default (sections : ConfData)
    (st : Option String × ConfData) (h : ∀ s ∈ sections, s.1 = "default") :
    (sections.foldl Send.get_url_step st).1 = st.1 := by
  induction sections generalizing st with
  | nil => rfl
  | cons nc rest ih =>
    have hnc : nc.1 = "default" := h nc (List.mem_cons_self nc rest)
    have hrest : ∀ s ∈ rest, s.1 = "default" :=
      fun s hs => h s (List.mem_cons_of_mem nc hs)
    rw [List.foldl_cons, ih _ hrest]
    simp [Send.get_url_step, hnc]

/-- C5 counterexample: `get_url`, applied to a present accounts file whose
only stanza is `default`, raises (`account_name` is read unassigned), and
applied to a file whose qualifying stanza lacks the URL field it raises a
key fault — refuting "never raise" for exactly the file states the claim
enumerates. -/
theorem c5_counterexample_get_url_raises :
    pyRaises (Send.get_url (some [("default", [])])) = true ∧
    pyRaises (Send.get_url (some [("acct", [("other", "x")])])) = true :=
  ⟨rfl, rfl⟩

/-- C5 (amended): `get_url` returns absent without raising only when the
accounts file is missing; a present file with no non-`default` stanza makes
it raise an unbound-local fault, and a qualifying stanza without the URL
field makes it raise a key fault.  (`get_proxy` is total in the embedding —
it returns the proxy stanza or absent and cannot raise.) -/
theorem c5_amended_get_url_raises_on_degenerate_files :
    Send.get_url none = .ok none ∧
    (∀ sections : ConfData, (∀ s ∈ sections, s.1 = "default") →
        Send.get_url (some sections) = .error (.nameError "account_name")) ∧
    (∀ (n : String) (fields : List (String × String)), n ≠ "default" →
        dictFind fields URL = none →
        Send.get_url (some [(n, fields)]) = .error (.keyError URL)) := by
  refine ⟨rfl, ?_, ?_⟩
  · intro sections h
    have h1 := get_url_step_fold_default sections (none, []) h
    simp [Send.get_url, h1]
  · intro n fields hn hurl
    simp only [dictFind] at hurl
    simp [Send.get_url, Send.get_url_step, hn, dictFind, hurl]

/-- C5 witness: the amended behavior at the two concrete degenerate files. -/
theorem c5_witness :
    Send.get_url (some [("default", [])]) = .error (.nameError "account_name") ∧
    Send.get_url (some [("acct", [("other", "x")])]) = .error (.keyError URL) :=
  ⟨c5_amended_get_url_raises_on_degenerate_files.2.1 [("default", [])] (by simp),
   c5_amended_get_url_raises_on_degenerate_files.2.2 "acct" [("other", "x")]
     (by decide) (by decide)⟩

/-! ### Claim C2 — missing required fields and the top-level catch -/

/-- C2 counterexample: a form that carries the credential but no sighting
value makes `handle` terminate with an uncaught `KeyError` — the failure is
not converted into the normalized response shape, because only the
`send_request` call sits inside the handler's `try`. -/
theorem c2_counterexample_key_fault_escapes :
    (Send.handle accountsConf₁ settingsConf₁ SIGHTING_SCHEMA tNow tNow
        (netOf 201 respBody201) [(CREDS, "k1")]).outcome =
      .error (.keyError SIGHTING_VALUE) := rfl

/-- C2 (amended): only the outbound call is caught at the top level.  A form
that contains a non-empty credential but lacks the sighting-value field makes
the handler raise a key-lookup fault that escapes un-normalized (and no
outbound request is issued); the same happens for the other required fields. -/
theorem c2_amended_missing_field_raises_uncaught
    (accounts settings : Option ConfData) (schema : Sighting)
    (now₀ now₁ : DateTime) (net : HttpRequest → NetResult)
    (form : List (String × String)) (k : String)
    (hurl : pyRaises (Send.get_url accounts) = false)
    (hcred : dictFind (Send.parse_form_data form) CREDS = some k)
    (hk : k ≠ "")
    (hmiss : dictFind (Send.parse_form_data form) SIGHTING_VALUE = none) :
    Send.handle accounts settings schema now₀ now₁ net form =
      ⟨.error (.keyError SIGHTING_VALUE), schema, []⟩ := by
  cases hu : Send.get_url accounts with
  | error e => rw [hu] at hurl; simp [pyRaises] at hurl
  | ok url => simp [Send.handle, hu, hcred, hk, hmiss]

/-- C2 witness: the amended behavior at a concrete credential-only form. -/
theorem c2_witness :
    Send.handle accountsConf₁ settingsConf₁ SIGHTING_SCHEMA tNow tNow
        (netOf 201 respBody201) [(CREDS, "k1")] =
      ⟨.error (.keyError SIGHTING_VALUE), SIGHTING_SCHEMA, []⟩ :=
  c2_amended_missing_field_raises_uncaught accountsConf₁ settingsConf₁
    SIGHTING_SCHEMA tNow tNow (netOf 201 respBody201) [(CREDS, "k1")] "k1"
    (by decide) (by decide) (by decide) (by decide)

/-! ### The built sighting document -/

/-- When the credential check passes and every required field is present, the
handler overwrites every leaf field of the aliased template, so the
module-level schema after the call is this fully determined document —
whatever the network does and whatever the template held before. -/
lemma handle_schema_after
    (accounts settings : Option ConfData) (schema : Sighting)
    (now₀ now₁ : DateTime) (net : HttpRequest → NetResult)
    (form : List (String × String)) (url : Option String) (k : String)
    (v desc conf title tags stype : String)
    (hu : Send.get_url accounts = .ok url)
    (hcred : dictFind (Send.parse_form_data form) CREDS = some k)
    (hk : k ≠ "")
    (hv : dictFind (Send.parse_form_data form) SIGHTING_VALUE = some v)
    (hd : dictFind (Send.parse_form_data form) SIGHTING_DESC = some desc)
    (hc : dictFind (Send.parse_form_data form) CONFIDENCE_LEVEL = some conf)
    (ht : dictFind (Send.parse_form_data form) SIGHTING_TITLE = some title)
    (htg : dictFind (Send.parse_form_data form) SIGHTING_TAGS = some tags)
    (hty : dictFind (Send.parse_form_data form) SIGHTING_TYPE = some stype) :
    (Send.handle accounts settings schema now₀ now₁ net form).schema =
      ⟨⟨⟨v, desc, strftime now₁ TIME_FORMAT, conf, title,
         ⟨stype, ⟨strftime now₀.midnight TIME_FORMAT⟩⟩⟩,
        ⟨[joinChars tags], strftime now₁ TIME_FORMAT⟩⟩⟩ := by
  simp only [Send.handle, hu, hcred, hk, hv, hd, hc, ht, htg, hty]
  cases url with
  | none => rfl
  | some u =>
    repeat' split
    all_goals try contradiction
    all_goals rfl

/-! ### Claim C4 — timestamps of the built document -/

/-- C4: on a well-formed form (credential and all required fields present),
for any instant `now`, the built document's data timestamp and metadata
ingest time both equal `now` rendered with the configured time-format
string, and the security-control start time equals midnight (00:00:00) of
`now`'s calendar date rendered with the same format. -/
theorem c4_timestamps_and_start_time
    (accounts settings : Option ConfData) (schema : Sighting) (now : DateTime)
    (net : HttpRequest → NetResult) (form : List (String × String))
    (url : Option String) (k v desc conf title tags stype : String)
    (hu : Send.get_url accounts = .ok url)
    (hcred : dictFind (Send.parse_form_data form) CREDS = some k)
    (hk : k ≠ "")
    (hv : dictFind (Send.parse_form_data form) SIGHTING_VALUE = some v)
    (hd : dictFind (Send.parse_form_data form) SIGHTING_DESC = some desc)
    (hc : dictFind (Send.parse_form_data form) CONFIDENCE_LEVEL = some conf)
    (ht : dictFind (Send.parse_form_data form) SIGHTING_TITLE = some title)
    (htg : dictFind (Send.parse_form_data form) SIGHTING_TAGS = some tags)
    (hty : dictFind (Send.parse_form_data form) SIGHTING_TYPE = some stype) :
    (Send.handle accounts settings schema now now net form).schema.data.data.timestamp
        = strftime now TIME_FORMAT ∧
    (Send.handle accounts settings schema now now net form).schema.data.meta.ingest_time
        = strftime now TIME_FORMAT ∧
    (Send.handle accounts settings schema now now net
        form).schema.data.data.security_control.time.start_time
        = strftime now.midnight TIME_FORMAT := by
  rw [handle_schema_after accounts settings schema now now net form url k v desc
    conf title tags stype hu hcred hk hv hd hc ht htg hty]
  exact ⟨rfl, rfl, rfl⟩

/-- C4 witness: the three timestamp equations at a concrete run. -/
theorem c4_witness :
    (Send.handle accountsConf₁ settingsConf₁ SIGHTING_SCHEMA tNow tNow
        (netOf 201 respBody201) fullForm).schema.data.data.timestamp
        = strftime tNow TIME_FORMAT ∧
    (Send.handle accountsConf₁ settingsConf₁ SIGHTING_SCHEMA tNow tNow
        (netOf 201 respBody201) fullForm).schema.data.meta.ingest_time
        = strftime tNow TIME_FORMAT ∧
    (Send.handle accountsConf₁ settingsConf₁ SIGHTING_SCHEMA tNow tNow
        (netOf 201 respBody201) fullForm).schema.data.data.security_control.time.start_time
        = strftime tNow.midnight TIME_FORMAT :=
  c4_timestamps_and_start_time accountsConf₁ settingsConf₁ SIGHTING_SCHEMA tNow
    (netOf 201 respBody201) fullForm (some "https://eiq.example") "k1" "1.2.3.4"
    "seen" "high" "t" "EIQ" "sighting" rfl rfl (by decide) rfl rfl rfl rfl rfl rfl

/-! ### Claim C8 — the tags pass-through -/

/-- Folding the singleton strings of the characters of `l` onto `acc`
concatenates them back in order. -/
lemma joinChars_foldl (l : List Char) (acc : String) :
    List.foldl (fun r s => r ++ s) acc (l.map (fun c => String.singleton c)) =
      acc ++ String.mk l := by
  induction l generalizing acc with
  | nil =>
    cases acc with
    | mk d =>
      show String.mk d = String.mk (d ++ [])
      rw [List.append_nil]
  | cons c l ih =>
    rw [List.map_cons, List.foldl_cons, ih]
    cases acc with
    | mk d =>
      show String.mk ((d ++ [c]) ++ l) = String.mk (d ++ (c :: l))
      rw [List.append_assoc]
      rfl

/-- The builder's character-by-character join is the identity on strings. -/
lemma joinChars_id (s : String) : joinChars s = s := by
  cases s with
  | mk data =>
    show List.foldl (fun r s => r ++ s) ""
        (data.map (fun c => String.singleton c)) = String.mk data
    rw [joinChars_foldl]
    rfl

/-- C8: the character-by-character join the builder performs on the submitted
tags value is the identity, so the built document's metadata tags field is
exactly the single-element list holding the submitted string. -/
theorem c8_tags_pass_through_unchanged
    (accounts settings : Option ConfData) (schema : Sighting)
    (now₀ now₁ : DateTime) (net : HttpRequest → NetResult)
    (form : List (String × String)) (url : Option String)
    (k v desc conf title tags stype : String)
    (hu : Send.get_url accounts = .ok url)
    (hcred : dictFind (Send.parse_form_data form) CREDS = some k)
    (hk : k ≠ "")
    (hv : dictFind (Send.parse_form_data form) SIGHTING_VALUE = some v)
    (hd : dictFind (Send.parse_form_data form) SIGHTING_DESC = some desc)
    (hc : dictFind (Send.parse_form_data form) CONFIDENCE_LEVEL = some conf)
    (ht : dictFind (Send.parse_form_data form) SIGHTING_TITLE = some title)
    (htg : dictFind (Send.parse_form_data form) SIGHTING_TAGS = some tags)
    (hty : dictFind (Send.parse_form_data form) SIGHTING_TYPE = some stype) :
    joinChars tags = tags ∧
    (Send.handle accounts settings schema now₀ now₁ net form).schema.data.meta.tags
      = [tags] := by
  refine ⟨joinChars_id tags, ?_⟩
  rw [handle_schema_after accounts settings schema now₀ now₁ net form url k v
    desc conf title tags stype hu hcred hk hv hd hc ht htg hty]
  rw [joinChars_id tags]

/-- C8 witness: the tags field of a concrete run. -/
theorem c8_witness :
    joinChars "EIQ" = "EIQ" ∧
    (Send.handle accountsConf₁ settingsConf₁ SIGHTING_SCHEMA tNow tNow
        (netOf 201 respBody201) fullForm).schema.data.meta.tags = ["EIQ"] :=
  c8_tags_pass_through_unchanged accountsConf₁ settingsConf₁ SIGHTING_SCHEMA
    tNow tNow (netOf 201 respBody201) fullForm (some "https://eiq.example")
    "k1" "1.2.3.4" "seen" "high" "t" "EIQ" "sighting"
    rfl rfl (by decide) rfl rfl rfl rfl rfl rfl

/-! ### Claim C10 — mutation of the module-level template -/

/-- C10 counterexample: one concrete call to `handle` changes the fields of
the module-level `SIGHTING_SCHEMA` structure it aliases — the schema value
after the call differs from the template, refuting "the fields of no
module-level structure are changed by a call to handle". -/
theorem c10_counterexample_schema_mutated :
    (Send.handle accountsConf₁ settingsConf₁ SIGHTING_SCHEMA tNow tNow
        (netOf 201 respBody201) fullForm).schema ≠ SIGHTING_SCHEMA := by
  rw [handle_schema_after accountsConf₁ settingsConf₁ SIGHTING_SCHEMA tNow tNow
    (netOf 201 respBody201) fullForm (some "https://eiq.example") "k1"
    "1.2.3.4" "seen" "high" "t" "EIQ" "sighting" rfl rfl (by decide) rfl rfl
    rfl rfl rfl rfl]
  intro hEq
  exact absurd (congrArg (fun s => s.data.data.value) hEq) (by decide)

/-- C10 (amended): `handle` aliases the module-level `SIGHTING_SCHEMA` and
overwrites its fields in place on every run that passes the credential check
and field lookups; whenever the submitted sighting value differs from the
template's current value field, the module-level structure is changed by the
call (the two configuration files are still only read). -/
theorem c10_amended_handle_mutates_template
    (accounts settings : Option ConfData) (schema : Sighting)
    (now₀ now₁ : DateTime) (net : HttpRequest → NetResult)
    (form : List (String × String)) (url : Option String)
    (k v desc conf title tags stype : String)
    (hu : Send.get_url accounts = .ok url)
    (hcred : dictFind (Send.parse_form_data form) CREDS = some k)
    (hk : k ≠ "")
    (hv : dictFind (Send.parse_form_data form) SIGHTING_VALUE = some v)
    (hd : dictFind (Send.parse_form_data form) SIGHTING_DESC = some desc)
    (hc : dictFind (Send.parse_form_data form) CONFIDENCE_LEVEL = some conf)
    (ht : dictFind (Send.parse_form_data form) SIGHTING_TITLE = some title)
    (htg : dictFind (Send.parse_form_data form) SIGHTING_TAGS = some tags)
    (hty : dictFind (Send.parse_form_data form) SIGHTING_TYPE = some stype)
    (hdiff : v ≠ schema.data.data.value) :
    (Send.handle accounts settings schema now₀ now₁ net form).schema ≠ schema := by
  rw [handle_schema_after accounts settings schema now₀ now₁ net form url k v
    desc conf title tags stype hu hcred hk hv hd hc ht htg hty]
  intro hEq
  exact hdiff (congrArg (fun s => s.data.data.value) hEq)

/-- C10 witness: the amended statement at a concrete run (submitted value
`"9.9.9.9"` against the blank template). -/
theorem c10_witness :
    (Send.handle accountsConf₁ settingsConf₁ SIGHTING_SCHEMA tNow tNow
        (netOf 201 respBody201)
        [(CREDS, "k1"), (SIGHTING_VALUE, "9.9.9.9"), (SIGHTING_DESC, "seen"),
         (CONFIDENCE_LEVEL, "high"), (SIGHTING_TITLE, "t"),
         (SIGHTING_TAGS, "EIQ"), (SIGHTING_TYPE, "sighting")]).schema ≠
      SIGHTING_SCHEMA :=
  c10_amended_handle_mutates_template accountsConf₁ settingsConf₁
    SIGHTING_SCHEMA tNow tNow (netOf 201 respBody201)
    [(CREDS, "k1"), (SIGHTING_VALUE, "9.9.9.9"), (SIGHTING_DESC, "seen"),
     (CONFIDENCE_LEVEL, "high"), (SIGHTING_TITLE, "t"),
     (SIGHTING_TAGS, "EIQ"), (SIGHTING_TYPE, "sighting")]
    (some "https://eiq.example") "k1" "9.9.9.9" "seen" "high" "t" "EIQ"
    "sighting" rfl rfl (by decide) rfl rfl rfl rfl rfl rfl (by decide)

/-! ### Claim C1 — what a non-2xx remote response actually produces -/

/-- C1: evaluating the handler on a simulated 503.  `raise_for_status` makes
`send_request` re-raise the HTTP error, the handler's catch-all converts it
to `create_response(500, err)`, so the caller receives status 500 carrying
the error object — not the original status 503 with the generic
"could not create sighting" body that the claim (and the handler's own
unreachable non-2xx branch) describe. -/
theorem c1_simulated_503_returns_500_with_error :
    (Send.handle accountsConf₁ settingsConf₁ SIGHTING_SCHEMA tNow tNow
        (netOf 503 (.jstr "upstream")) fullForm).outcome =
      .ok ⟨.err (.httpError 503), 500, [(CONTENT_TYPE, TEXT_PLAIN)]⟩ := rfl

/-! ### Claim C9 — absent proxy configuration -/

/-- C9: when the settings file yields no proxy stanza, `handle` hands the
Python `None` to `send_request`, whose `None.get("proxy_enabled")`
dereference raises before any request is built; the top-level catch converts
it into a status-500 response and no outbound HTTP request is issued. -/
theorem c9_absent_proxy_config_500_no_call
    (accounts settings : Option ConfData) (schema : Sighting)
    (now₀ now₁ : DateTime) (net : HttpRequest → NetResult)
    (form : List (String × String)) (u : String)
    (k v desc conf title tags stype : String)
    (hu : Send.get_url accounts = .ok (some u))
    (hproxy : Send.get_proxy settings = none)
    (hcred : dictFind (Send.parse_form_data form) CREDS = some k)
    (hk : k ≠ "")
    (hv : dictFind (Send.parse_form_data form) SIGHTING_VALUE = some v)
    (hd : dictFind (Send.parse_form_data form) SIGHTING_DESC = some desc)
    (hc : dictFind (Send.parse_form_data form) CONFIDENCE_LEVEL = some conf)
    (ht : dictFind (Send.parse_form_data form) SIGHTING_TITLE = some title)
    (htg : dictFind (Send.parse_form_data form) SIGHTING_TAGS = some tags)
    (hty : dictFind (Send.parse_form_data form) SIGHTING_TYPE = some stype) :
    (Send.handle accounts settings schema now₀ now₁ net form).outcome =
      .ok (Send.create_response 500
        (.err (.attributeError "NoneType has no attribute get"))) ∧
    (Send.handle accounts settings schema now₀ now₁ net form).sent = [] := by
  refine ⟨?_, ?_⟩ <;>
    simp [Send.handle, Send.send_request, injectProxyPass, hu, hproxy, hcred,
      hk, hv, hd, hc, ht, htg, hty]

/-- C9 witness: concrete run with an absent settings file. -/
theorem c9_witness :
    (Send.handle accountsConf₁ none SIGHTING_SCHEMA tNow tNow
        (netOf 201 respBody201) fullForm).outcome =
      .ok (Send.create_response 500
        (.err (.attributeError "NoneType has no attribute get"))) ∧
    (Send.handle accountsConf₁ none SIGHTING_SCHEMA tNow tNow
        (netOf 201 respBody201) fullForm).sent = [] :=
  c9_absent_proxy_config_500_no_call accountsConf₁ none SIGHTING_SCHEMA tNow
    tNow (netOf 201 respBody201) fullForm "https://eiq.example" "k1" "1.2.3.4"
    "seen" "high" "t" "EIQ" "sighting" rfl rfl rfl (by decide) rfl rfl rfl rfl
    rfl rfl

/-! ### Claim C6 — 2xx confirmation message -/

/-- C6: when the outbound call comes back with a 2xx status `s` and a JSON
body whose `data.id` is `entityId`, the handler returns the remote status
`s` together with the formatted confirmation message
"Sighting created: 〈url〉/〈id〉" containing that id. -/
theorem c6_2xx_returns_confirmation_message
    (accounts settings : Option ConfData) (schema : Sighting)
    (now₀ now₁ : DateTime) (net : HttpRequest → NetResult)
    (form : List (String × String)) (u : String)
    (pfields : List (String × String)) (s : Nat) (body d : Jsn)
    (k v desc conf title tags stype entityId : String)
    (hu : Send.get_url accounts = .ok (some u))
    (hproxy : Send.get_proxy settings = some pfields)
    (hcred : dictFind (Send.parse_form_data form) CREDS = some k)
    (hk : k ≠ "")
    (hv : dictFind (Send.parse_form_data form) SIGHTING_VALUE = some v)
    (hd : dictFind (Send.parse_form_data form) SIGHTING_DESC = some desc)
    (hc : dictFind (Send.parse_form_data form) CONFIDENCE_LEVEL = some conf)
    (ht : dictFind (Send.parse_form_data form) SIGHTING_TITLE = some title)
    (htg : dictFind (Send.parse_form_data form) SIGHTING_TAGS = some tags)
    (hty : dictFind (Send.parse_form_data form) SIGHTING_TYPE = some stype)
    (hnet : ∀ req, net req = .resp ⟨s, body⟩)
    (hraise : ¬(400 ≤ s ∧ s < 600))
    (h2 : strStartsWith (toString s) "2" = true)
    (hdata : jsnGet body DATA_STR = .ok d)
    (hid : jsnGet d "id" = .ok (.jstr entityId)) :
    (Send.handle accounts settings schema now₀ now₁ net form).outcome =
      .ok (Send.create_response s (.text (sightingCreated u entityId))) := by
  by_cases hpf : pfields = [] <;>
    simp [Send.handle, Send.send_request, injectProxyPass, hu, hproxy, hcred,
      hk, hv, hd, hc, ht, htg, hty, hnet, hraise, h2, hdata, hid, hpf, pyStr]

/-- C6 witness: the spec's own example — a simulated 201 whose body carries
`data.id = "abc123"`. -/
theorem c6_witness :
    (Send.handle accountsConf₁ settingsConf₁ SIGHTING_SCHEMA tNow tNow
        (netOf 201 respBody201) fullForm).outcome =
      .ok (Send.create_response 201
        (.text (sightingCreated "https://eiq.example" "abc123"))) :=
  c6_2xx_returns_confirmation_message accountsConf₁ settingsConf₁
    SIGHTING_SCHEMA tNow tNow (netOf 201 respBody201) fullForm
    "https://eiq.example" [("proxy_enabled", "0"), ("proxy_host", "p.example")]
    201 respBody201 (.jobj [("id", .jstr "abc123")]) "k1" "1.2.3.4" "seen"
    "high" "t" "EIQ" "sighting" "abc123" rfl rfl rfl (by decide) rfl rfl rfl
    rfl rfl rfl (fun _ => rfl) (by decide) rfl rfl rfl

/-! ### Claim C7 — shape of the outbound request -/

/-- Writing one key of a Python dict leaves lookups of any other key
unchanged. -/
lemma dictFind_dictSet_ne {α : Type} (d : List (String × α))
    (key newKey : String) (v : α) (h : key ≠ newKey) :
    dictFind (dictSet d newKey v) key = dictFind d key := by
  induction d with
  | nil => simp [dictSet, dictFind, Ne.symm h]
  | cons kv rest ih =>
    by_cases hk : kv.1 = newKey
    · have hkey : ¬ kv.1 = key := by rw [hk]; exact Ne.symm h
      simp [dictSet, hk, dictFind, hkey, Ne.symm h]
    · by_cases hky : kv.1 = key
      · simp [dictSet, hk, dictFind, hky, h]
      · simp only [dictSet, if_neg hk]
        simp only [dictFind, List.find?] at ih ⊢
        simp [hky, ih]

/-- C7: whenever the handler reaches the outbound call, it issues exactly one
request (no retry): a POST to the configured base URL extended with
"/entities", with the Bearer authorization header built from the submitted
key, the built sighting document as body, TLS verification on, a 50-second
timeout, and a proxy configured if and only if the proxy stanza's
`proxy_enabled` field equals the string "1". -/
theorem c7_outbound_request_shape
    (accounts settings : Option ConfData) (schema : Sighting)
    (now₀ now₁ : DateTime) (net : HttpRequest → NetResult)
    (form : List (String × String)) (u : String)
    (pfields : List (String × String)) (k v desc conf title tags stype : String)
    (hu : Send.get_url accounts = .ok (some u))
    (hproxy : Send.get_proxy settings = some pfields)
    (hcred : dictFind (Send.parse_form_data form) CREDS = some k)
    (hk : k ≠ "")
    (hv : dictFind (Send.parse_form_data form) SIGHTING_VALUE = some v)
    (hd : dictFind (Send.parse_form_data form) SIGHTING_DESC = some desc)
    (hc : dictFind (Send.parse_form_data form) CONFIDENCE_LEVEL = some conf)
    (ht : dictFind (Send.parse_form_data form) SIGHTING_TITLE = some title)
    (htg : dictFind (Send.parse_form_data form) SIGHTING_TAGS = some tags)
    (hty : dictFind (Send.parse_form_data form) SIGHTING_TYPE = some stype) :
    ∃ r : HttpRequest,
      (Send.handle accounts settings schema now₀ now₁ net form).sent = [r] ∧
      r.method = "post" ∧
      r.url = u ++ "/entities" ∧
      r.headers = [(AUTHORIZATION, "Bearer " ++ k)] ∧
      r.body = (Send.handle accounts settings schema now₀ now₁ net form).schema ∧
      r.verify = true ∧
      r.timeoutSecs = 50 ∧
      (r.proxies ≠ none ↔ dictFind pfields "proxy_enabled" = some "1") := by
  have hdoc := handle_schema_after accounts settings schema now₀ now₁ net form
    (some u) k v desc conf title tags stype hu hcred hk hv hd hc ht htg hty
  obtain ⟨pf2, hpf2, hpfeq⟩ :
      ∃ pf2, injectProxyPass (some pfields)
          (proxyPassOf (Send.parse_form_data form)) = some pf2 ∧
        dictFind pf2 "proxy_enabled" = dictFind pfields "proxy_enabled" := by
    by_cases hpf : pfields = []
    · exact ⟨pfields, by simp [injectProxyPass, hpf], rfl⟩
    · exact ⟨dictSet pfields PROXY_PASSWORD
          (proxyPassOf (Send.parse_form_data form)),
        by simp [injectProxyPass, hpf],
        dictFind_dictSet_ne pfields "proxy_enabled" PROXY_PASSWORD _ (by decide)⟩
  have hsent : (Send.handle accounts settings schema now₀ now₁ net form).sent =
      [⟨"post", u ++ "/entities", [(AUTHORIZATION, "Bearer " ++ k)],
        ⟨⟨⟨v, desc, strftime now₁ TIME_FORMAT, conf, title,
           ⟨stype, ⟨strftime now₀.midnight TIME_FORMAT⟩⟩⟩,
          ⟨[joinChars tags], strftime now₁ TIME_FORMAT⟩⟩⟩, true, 50,
        if dictFind pf2 "proxy_enabled" = some "1"
        then some (format_proxy_uri pf2) else none⟩] := by
    simp only [Send.handle, hu, hproxy, hcred, hk, hv, hd, hc, ht, htg, hty,
      hpf2]
    simp only [Send.send_request]
    repeat' split
    all_goals try contradiction
    all_goals rfl
  refine ⟨_, hsent, rfl, rfl, rfl, hdoc.symm, rfl, rfl, ?_⟩
  show (if dictFind pf2 "proxy_enabled" = some "1"
      then some (format_proxy_uri pf2) else none) ≠ none ↔
    dictFind pfields "proxy_enabled" = some "1"
  rw [hpfeq]
  by_cases hc1 : dictFind pfields "proxy_enabled" = some "1" <;> simp [hc1]

/-- C7 witness: the request issued during a concrete run with the disabled
proxy stanza. -/
theorem c7_witness :
    ∃ r : HttpRequest,
      (Send.handle accountsConf₁ settingsConf₁ SIGHTING_SCHEMA tNow tNow
          (netOf 201 respBody201) fullForm).sent = [r] ∧
      r.method = "post" ∧
      r.url = "https://eiq.example" ++ "/entities" ∧
      r.headers = [(AUTHORIZATION, "Bearer " ++ "k1")] ∧
      r.body = (Send.handle accountsConf₁ settingsConf₁ SIGHTING_SCHEMA tNow
        tNow (netOf 201 respBody201) fullForm).schema ∧
      r.verify = true ∧
      r.timeoutSecs = 50 ∧
      (r.proxies ≠ none ↔
        dictFind [("proxy_enabled", "0"), ("proxy_host", "p.example")]
          "proxy_enabled" = some "1") :=
  c7_outbound_request_shape accountsConf₁ settingsConf₁ SIGHTING_SCHEMA tNow
    tNow (netOf 201 respBody201) fullForm "https://eiq.example"
    [("proxy_enabled", "0"), ("proxy_host", "p.example")] "k1" "1.2.3.4"
    "seen" "high" "t" "EIQ" "sighting" rfl rfl rfl (by decide) rfl rfl rfl rfl
    rfl rfl
